import Mathlib

/-!
Verification development for the Billzzy tracking/notification slice:
`src/app/api/billing/tracking/route.ts` and `src/lib/msg-whatsapp.ts`,
shallowly embedded in Lean. JavaScript strings are modelled by `String`
(reasoned about through their `List Char` data), JS `parseInt`/falsiness
by `Option`-valued helpers, and external effects (ORM, fetch, clock,
session) by explicit environment records passed to the handlers.
-/

namespace Billzzy

/-- JS `String.prototype.startsWith`, on the character data. -/
def jsStartsWith (s p : String) : Bool :=
  p.data.isPrefixOf s.data

/-- The regex `/^10(?!000)/` of route.ts line 11: the string starts with
"10" and the next three characters are not "000". -/
def matches10not000 (s : String) : Bool :=
  (['1', '0'].isPrefixOf s.data) && !(['0', '0', '0'].isPrefixOf (s.data.drop 2))

/-- route.ts `determineShippingPartner`: ordered first-match-wins rules. -/
def determineShippingPartner (trackingNumber : String) : String :=
  if jsStartsWith trackingNumber "CT" then "INDIA POST"
  else if jsStartsWith trackingNumber "C1" then "DTDC"
  else if jsStartsWith trackingNumber "58" then "ST COURIER"
  else if jsStartsWith trackingNumber "500" || jsStartsWith trackingNumber "10000"
       || matches10not000 trackingNumber then "TRACKON"
  else if jsStartsWith trackingNumber "SM" then "SINGPOST"
  else if jsStartsWith trackingNumber "33" then "ECOM"
  else if jsStartsWith trackingNumber "SR" || jsStartsWith trackingNumber "EP" then "EKART"
  else if jsStartsWith trackingNumber "14" then "XPRESSBEES"
  else if jsStartsWith trackingNumber "S" || jsStartsWith trackingNumber "1" then "SHIP ROCKET"
  else if jsStartsWith trackingNumber "7" then "DELHIVERY"
  else if jsStartsWith trackingNumber "JT" then "J&T"
  else if jsStartsWith trackingNumber "TRZ" then "PROFESSIONAL COURIER"
  else "Unknown"

/-- route.ts `getTrackingUrl`: the `urls[partner] || fallback` lookup.
The `number` argument is accepted, as in the source, and unused. -/
def getTrackingUrl (partner : String) (number : String) : String :=
  match partner with
  | "INDIA POST" => "https://www.indiapost.gov.in/_layouts/15/dop.portal.tracking/trackconsignment.aspx"
  | "ST COURIER" => "https://stcourier.com/track/shipment"
  | "DTDC" => "https://www.dtdc.in/track"
  | "TRACKON" => "https://trackon.in"
  | "SHIP ROCKET" => "https://www.shiprocket.in/shipment-tracking"
  | "DELHIVERY" => "https://www.delhivery.com/track/package"
  | "ECOM" => "https://ecomexpress.in/tracking"
  | "EKART" => "https://ekartlogistics.com/track"
  | "XPRESSBEES" => "https://www.xpressbees.com/track"
  | "PROFESSIONAL COURIER" => "https://www.tpcindia.com/"
  | _ => "https://vaseegrahveda.com/tracking"

/-- Decomposition of a successful `List.isPrefixOf` check, one character at
a time. -/
theorem isPrefixOf_cons_iff (a : Char) (as l : List Char) :
    (a :: as).isPrefixOf l = true ↔ ∃ t, l = a :: t ∧ as.isPrefixOf t = true := by
  cases l with
  | nil =>
    constructor
    · intro h; exact absurd h (by simp [List.isPrefixOf])
    · rintro ⟨t, h, -⟩; cases h
  | cons b bs =>
    rw [List.isPrefixOf_cons₂, Bool.and_eq_true, beq_iff_eq]
    constructor
    · rintro ⟨rfl, h2⟩; exact ⟨bs, rfl, h2⟩
    · rintro ⟨t, heq, hp⟩
      cases heq
      exact ⟨rfl, hp⟩

/-- A string passing a two-character `jsStartsWith` check has those two
characters at the head of its data. -/
theorem startsWith_two (s : String) (a b : Char)
    (h : ([a, b]).isPrefixOf s.data = true) : ∃ t, s.data = a :: b :: t := by
  obtain ⟨t1, h1, h2⟩ := (isPrefixOf_cons_iff a [b] s.data).mp h
  obtain ⟨t2, h3, -⟩ := (isPrefixOf_cons_iff b [] t1).mp h2
  exact ⟨t2, by rw [h1, h3]⟩

/-- A string passing a three-character `jsStartsWith` check has those three
characters at the head of its data. -/
theorem startsWith_three (s : String) (a b c : Char)
    (h : ([a, b, c]).isPrefixOf s.data = true) : ∃ t, s.data = a :: b :: c :: t := by
  obtain ⟨t1, h1, h2⟩ := (isPrefixOf_cons_iff a [b, c] s.data).mp h
  obtain ⟨t2, h3, h4⟩ := (isPrefixOf_cons_iff b [c] t1).mp h2
  obtain ⟨t3, h5, -⟩ := (isPrefixOf_cons_iff c [] t2).mp h4
  exact ⟨t3, by rw [h1, h3, h5]⟩

/-- C3 counterexample: the claim asserts `determineShippingPartner "10000"`
is not "TRACKON"; in fact the regex rule rejects "10000" but the explicit
`startsWith("10000")` disjunct of the same rule still classifies it as
TRACKON. -/
theorem trackon_10000_counterexample :
    matches10not000 "10000" = false ∧
    jsStartsWith "10000" "10000" = true ∧
    determineShippingPartner "10000" = "TRACKON" := by
  refine ⟨by decide, by decide, by decide⟩

/-- C3 (amended): "10001" and every tracking number matching the
`10`-not-followed-by-`000` regex classify as TRACKON; "10000" is rejected
by that regex but is still classified TRACKON through the explicit
`startsWith("10000")` disjunct of the same rule. Boundary inputs "10" and
"100" match the regex; "100001" does not but keeps the `10000` textual
head. -/
theorem trackon_numeric_rule_amended :
    (∀ s : String, matches10not000 s = true →
      determineShippingPartner s = "TRACKON") ∧
    matches10not000 "10001" = true ∧
    determineShippingPartner "10001" = "TRACKON" ∧
    matches10not000 "10" = true ∧
    matches10not000 "100" = true ∧
    matches10not000 "10000" = false ∧
    matches10not000 "100001" = false ∧
    determineShippingPartner "10000" = "TRACKON" ∧
    determineShippingPartner "100001" = "TRACKON" := by
  refine ⟨?_, by decide, by decide, by decide, by decide, by decide, by decide,
    by decide, by decide⟩
  intro s h
  have h10 : (['1', '0'].isPrefixOf s.data) = true := by
    unfold matches10not000 at h
    exact (Bool.and_eq_true_iff.mp h).1
  obtain ⟨t, hd⟩ := startsWith_two s '1' '0' h10
  have hnot : (['0', '0', '0'].isPrefixOf t) = false := by
    unfold matches10not000 at h
    rw [hd] at h
    simpa using (Bool.and_eq_true_iff.mp h).2
  simp [determineShippingPartner, jsStartsWith, matches10not000, hd,
    List.isPrefixOf, hnot]

/-- C3 witness: the amended universal regex rule applied at the concrete
boundary input "10". -/
theorem trackon_numeric_rule_amended_witness :
    matches10not000 "10" = true ∧ determineShippingPartner "10" = "TRACKON" :=
  ⟨by decide, trackon_numeric_rule_amended.1 "10" (by decide)⟩

/-- Disjunction of every prefix test appearing in
`determineShippingPartner`'s rules; a tracking number on which this is
false matches none of the listed prefixes. -/
def matchesAnyCourierRule (s : String) : Bool :=
  jsStartsWith s "CT" || jsStartsWith s "C1" || jsStartsWith s "58" ||
  jsStartsWith s "500" || jsStartsWith s "10000" || matches10not000 s ||
  jsStartsWith s "SM" || jsStartsWith s "33" ||
  jsStartsWith s "SR" || jsStartsWith s "EP" ||
  jsStartsWith s "14" || jsStartsWith s "S" || jsStartsWith s "1" ||
  jsStartsWith s "7" || jsStartsWith s "JT" || jsStartsWith s "TRZ"

/-- C6: ordered first-match-wins classification — every tracking number
starting with "CT" maps to INDIA POST, "C1" to DTDC, "JT" to J&T, "TRZ" to
PROFESSIONAL COURIER; every tracking number matching none of the listed
prefixes yields "Unknown", whose tracking URL is the generic fallback —
the unmatched "ZZ123" being a concrete instance. -/
theorem courier_fixed_rules :
    (∀ s : String, jsStartsWith s "CT" = true →
      determineShippingPartner s = "INDIA POST") ∧
    (∀ s : String, jsStartsWith s "C1" = true →
      determineShippingPartner s = "DTDC") ∧
    (∀ s : String, jsStartsWith s "JT" = true →
      determineShippingPartner s = "J&T") ∧
    (∀ s : String, jsStartsWith s "TRZ" = true →
      determineShippingPartner s = "PROFESSIONAL COURIER") ∧
    (∀ s : String, matchesAnyCourierRule s = false →
      determineShippingPartner s = "Unknown" ∧
      getTrackingUrl (determineShippingPartner s) s =
        "https://vaseegrahveda.com/tracking") ∧
    matchesAnyCourierRule "ZZ123" = false ∧
    determineShippingPartner "ZZ123" = "Unknown" ∧
    getTrackingUrl (determineShippingPartner "ZZ123") "ZZ123" =
      "https://vaseegrahveda.com/tracking" := by
  refine ⟨?_, ?_, ?_, ?_, ?_, by decide, by decide, by decide⟩
  · intro s h
    simp [determineShippingPartner, h]
  · intro s h
    obtain ⟨t, hd⟩ := startsWith_two s 'C' '1' h
    simp [determineShippingPartner, jsStartsWith, matches10not000, hd,
      List.isPrefixOf]
  · intro s h
    obtain ⟨t, hd⟩ := startsWith_two s 'J' 'T' h
    simp [determineShippingPartner, jsStartsWith, matches10not000, hd,
      List.isPrefixOf]
  · intro s h
    obtain ⟨t, hd⟩ := startsWith_three s 'T' 'R' 'Z' h
    simp [determineShippingPartner, jsStartsWith, matches10not000, hd,
      List.isPrefixOf]
  · intro s h
    simp only [matchesAnyCourierRule, Bool.or_eq_false_iff] at h
    obtain ⟨⟨⟨⟨⟨⟨⟨⟨⟨⟨⟨⟨⟨⟨⟨h1, h2⟩, h3⟩, h4⟩, h5⟩, h6⟩, h7⟩, h8⟩, h9⟩,
      h10⟩, h11⟩, h12⟩, h13⟩, h14⟩, h15⟩, h16⟩ := h
    have hu : determineShippingPartner s = "Unknown" := by
      simp [determineShippingPartner, h1, h2, h3, h4, h5, h6, h7, h8, h9,
        h10, h11, h12, h13, h14, h15, h16]
    exact ⟨hu, by rw [hu]; rfl⟩

/-- C6 witness: the four universal prefix rules and the universal no-match
rule applied at concrete tracking numbers. -/
theorem courier_fixed_rules_witness :
    determineShippingPartner "CT12" = "INDIA POST" ∧
    determineShippingPartner "C199" = "DTDC" ∧
    determineShippingPartner "JT55" = "J&T" ∧
    determineShippingPartner "TRZ7" = "PROFESSIONAL COURIER" ∧
    (determineShippingPartner "ZZ123" = "Unknown" ∧
      getTrackingUrl (determineShippingPartner "ZZ123") "ZZ123" =
        "https://vaseegrahveda.com/tracking") :=
  ⟨courier_fixed_rules.1 "CT12" (by decide),
   courier_fixed_rules.2.1 "C199" (by decide),
   courier_fixed_rules.2.2.1 "JT55" (by decide),
   courier_fixed_rules.2.2.2.1 "TRZ7" (by decide),
   courier_fixed_rules.2.2.2.2.1 "ZZ123" (by decide)⟩

/-- The ten courier labels that have an entry in `getTrackingUrl`'s table. -/
def mappedCourierLabels : List String :=
  ["INDIA POST", "ST COURIER", "DTDC", "TRACKON", "SHIP ROCKET",
   "DELHIVERY", "ECOM", "EKART", "XPRESSBEES", "PROFESSIONAL COURIER"]

/-- The tracking-page URLs of the mapped couriers, in table order. -/
def mappedCourierUrls : List String :=
  ["https://www.indiapost.gov.in/_layouts/15/dop.portal.tracking/trackconsignment.aspx",
   "https://stcourier.com/track/shipment",
   "https://www.dtdc.in/track",
   "https://trackon.in",
   "https://www.shiprocket.in/shipment-tracking",
   "https://www.delhivery.com/track/package",
   "https://ecomexpress.in/tracking",
   "https://ekartlogistics.com/track",
   "https://www.xpressbees.com/track",
   "https://www.tpcindia.com/"]

/-- C8 counterexample: "SINGPOST" is a label `determineShippingPartner` can
return (for example on "SM1") and is not "Unknown", yet `getTrackingUrl`
has no entry for it and falls back to the generic URL; the same gap exists
for "J&T". -/
theorem tracking_url_gap_counterexample :
    determineShippingPartner "SM1" = "SINGPOST" ∧
    "SINGPOST" ≠ "Unknown" ∧
    getTrackingUrl "SINGPOST" "SM1" = "https://vaseegrahveda.com/tracking" ∧
    determineShippingPartner "JT1" = "J&T" ∧
    getTrackingUrl "J&T" "JT1" = "https://vaseegrahveda.com/tracking" := by
  refine ⟨by decide, by decide, by decide, by decide, by decide⟩

/-- C8 (amended): each of the ten labels in `getTrackingUrl`'s table maps,
independently of the tracking number, to its own fixed URL, and those ten
URLs are pairwise distinct and distinct from the generic fallback; but the
returnable labels "SINGPOST" and "J&T" are unmapped and fall back to the
generic URL, as do unknown labels. -/
theorem tracking_url_table_amended :
    (∀ n : String,
      mappedCourierLabels.map (fun p => getTrackingUrl p n) = mappedCourierUrls) ∧
    mappedCourierUrls.Nodup ∧
    "https://vaseegrahveda.com/tracking" ∉ mappedCourierUrls ∧
    (∀ n : String,
      getTrackingUrl "SINGPOST" n = "https://vaseegrahveda.com/tracking" ∧
      getTrackingUrl "J&T" n = "https://vaseegrahveda.com/tracking" ∧
      getTrackingUrl "Unknown" n = "https://vaseegrahveda.com/tracking") := by
  refine ⟨fun n => rfl, by decide, by decide, fun n => ⟨rfl, rfl, rfl⟩⟩

/-- C10: `getTrackingUrl` ignores its tracking-number argument entirely —
its result depends only on the partner label. -/
theorem tracking_url_ignores_number :
    ∀ (p n1 n2 : String), getTrackingUrl p n1 = getTrackingUrl p n2 := by
  intro p n1 n2
  rfl

/-- JS `phone.replace(/[^\d]/g, '')` of msg-whatsapp.ts line 52: keep only
the decimal digits. -/
def normalizePhone (phone : String) : String :=
  ⟨phone.data.filter (fun c => c.isDigit)⟩

/-- The optional `shippingMethod {name, type, cost}` of
`BillingWhatsAppParams`; the JS numeric `cost` is modelled as an integer,
only its decimal rendering is used. -/
structure ShippingMethod where
  name : String
  type : String
  cost : Int

/-- The parameter record of `sendBillingWhatsApp` (msg-whatsapp.ts lines
7–20). -/
structure BillingWhatsAppParams where
  phone : String
  companyName : String
  products : String
  amount : Int
  address : String
  organisationId : Nat
  billNo : Nat
  shippingMethod : Option ShippingMethod

/-- The parsed JSON body of a provider response; `message_id` is the
extracted identifier (`responseData.message_id || null`: absent or falsy
becomes `none`). -/
structure ProviderResponse where
  message_id : Option String
deriving DecidableEq

/-- Outcome of the awaited `fetch` to the provider: the promise either
rejects with an error message, or resolves to a response with its `ok`
flag, status, body text, and the outcome of `res.json()` (which may itself
reject). -/
inductive FetchOutcome where
  | throw (msg : String)
  | resp (ok : Bool) (status : Nat) (text : String) (json : Except String ProviderResponse)

/-- Environment of one `sendBillingWhatsApp` call: the awaited
`getValidAccessToken` result (which may reject, or resolve to a token or
null), the `fetch` oracle keyed by token, formatted phone and message, and
the `new Date().toISOString()` value read in the catch block. -/
structure SendEnv where
  tokenOutcome : Except String (Option String)
  fetch : String → String → String → FetchOutcome
  timestamp : String

/-- The value `sendBillingWhatsApp` resolves with: either the success
object `{success: true, data, messageId}` or the structured failure
`{success: false, error, timestamp}`. -/
inductive SendResult where
  | ok (data : ProviderResponse) (messageId : Option String)
  | fail (error : String) (timestamp : String)
deriving DecidableEq

/-- The `\n🚚 Shipping: ...` line (msg-whatsapp.ts lines 44–46), appended
only when a shipping method is supplied. -/
def shippingLineOf (shippingMethod : Option ShippingMethod) : String :=
  match shippingMethod with
  | some m => "\n🚚 Shipping: " ++ m.name ++ " (" ++ m.type ++ ") - ₹" ++ toString m.cost
  | none => ""

/-- The message template literal of msg-whatsapp.ts line 49, with the
external `splitAddressIntoThreeParts` supplied as a function argument. -/
def composeBillingMessage (splitAddressIntoThreeParts : String → String × String × String)
    (p : BillingWhatsAppParams) : String :=
  let parts := splitAddressIntoThreeParts p.address
  "🧾 *" ++ p.companyName ++ " Bill #" ++ toString p.billNo ++ "*\n\n🛒 *Items:*\n"
    ++ p.products ++ "\n\n💰 *Total:* ₹" ++ toString p.amount
    ++ shippingLineOf p.shippingMethod
    ++ "\n\n🏠 *Delivery Address:*\n" ++ parts.1 ++ "\n" ++ parts.2.1 ++ "\n" ++ parts.2.2
    ++ "\n\n🙏 Thank you for shopping with us!"

/-- msg-whatsapp.ts `sendBillingWhatsApp`: the whole body sits in a
try/catch whose catch converts any thrown error into the structured
failure result, so the function always returns a `SendResult`. Thrown
values are modelled by their message strings (the catch maps a non-Error
throw to "Unknown error occurred"; both cases are message strings here).
`splitAddressIntoThreeParts` is the external text utility, passed
explicitly. -/
def sendBillingWhatsApp (splitAddressIntoThreeParts : String → String × String × String)
    (p : BillingWhatsAppParams) (env : SendEnv) : SendResult :=
  match env.tokenOutcome with
  | .error e => .fail e env.timestamp
  | .ok none => .fail "No valid access token found for organisation" env.timestamp
  | .ok (some accessToken) =>
    let message := composeBillingMessage splitAddressIntoThreeParts p
    let formattedPhone := normalizePhone p.phone
    if formattedPhone.length < 10 then
      .fail "Invalid phone number format" env.timestamp
    else
      match env.fetch accessToken formattedPhone message with
      | .throw e => .fail e env.timestamp
      | .resp ok status text json =>
        if ok then
          match json with
          | .error e => .fail e env.timestamp
          | .ok data => .ok data data.message_id
        else
          .fail ("WhatsApp API error: " ++ toString status ++ " - " ++ text) env.timestamp

/-- Fixed billing facts used to exercise `sendBillingWhatsApp` at the two
phone numbers named by the specification. -/
def examplePhoneParams (phone : String) : BillingWhatsAppParams :=
  { phone := phone, companyName := "Veda", products := "Soap", amount := 100,
    address := "12 A Street", organisationId := 1, billNo := 42,
    shippingMethod := none }

/-- C4: `sendBillingWhatsApp` always returns a `SendResult` (never throws);
every failure cause — rejected or null token, phone normalizing to fewer
than 10 digits, rejected fetch, non-success HTTP status, rejected JSON
parse — produces the structured failure carrying an error message and the
timestamp; "+91 98765-43210" normalizes to the 12-digit "919876543210" and
is accepted, while "12345" yields the phone-validation failure result. -/
theorem send_billing_structured :
    (∀ sa p env, (∃ d m, sendBillingWhatsApp sa p env = .ok d m) ∨
      (∃ e, sendBillingWhatsApp sa p env = .fail e env.timestamp)) ∧
    normalizePhone "+91 98765-43210" = "919876543210" ∧
    (normalizePhone "+91 98765-43210").length = 12 ∧
    (normalizePhone "12345").length = 5 ∧
    (∀ sa p env e, env.tokenOutcome = .error e →
      sendBillingWhatsApp sa p env = .fail e env.timestamp) ∧
    (∀ sa p env, env.tokenOutcome = .ok none →
      sendBillingWhatsApp sa p env =
        .fail "No valid access token found for organisation" env.timestamp) ∧
    (∀ sa p env tok, env.tokenOutcome = .ok (some tok) →
      (normalizePhone p.phone).length < 10 →
      sendBillingWhatsApp sa p env = .fail "Invalid phone number format" env.timestamp) ∧
    (∀ sa p env tok e, env.tokenOutcome = .ok (some tok) →
      10 ≤ (normalizePhone p.phone).length →
      env.fetch tok (normalizePhone p.phone) (composeBillingMessage sa p) = .throw e →
      sendBillingWhatsApp sa p env = .fail e env.timestamp) ∧
    (∀ sa p env tok status text json, env.tokenOutcome = .ok (some tok) →
      10 ≤ (normalizePhone p.phone).length →
      env.fetch tok (normalizePhone p.phone) (composeBillingMessage sa p) =
        .resp false status text json →
      sendBillingWhatsApp sa p env =
        .fail ("WhatsApp API error: " ++ toString status ++ " - " ++ text) env.timestamp) ∧
    (∀ sa env tok d, env.tokenOutcome = .ok (some tok) →
      env.fetch tok "919876543210"
          (composeBillingMessage sa (examplePhoneParams "+91 98765-43210")) =
        .resp true 200 "" (.ok d) →
      sendBillingWhatsApp sa (examplePhoneParams "+91 98765-43210") env =
        .ok d d.message_id) ∧
    (∀ sa env tok, env.tokenOutcome = .ok (some tok) →
      sendBillingWhatsApp sa (examplePhoneParams "12345") env =
        .fail "Invalid phone number format" env.timestamp) := by
  refine ⟨?_, by decide, by decide, by decide, ?_, ?_, ?_, ?_, ?_, ?_, ?_⟩
  · intro sa p env
    unfold sendBillingWhatsApp
    match htok : env.tokenOutcome with
    | .error e => exact Or.inr ⟨e, rfl⟩
    | .ok none => exact Or.inr ⟨_, rfl⟩
    | .ok (some tok) =>
      by_cases hlen : (normalizePhone p.phone).length < 10
      · exact Or.inr ⟨"Invalid phone number format", by simp [hlen]⟩
      · match hf : env.fetch tok (normalizePhone p.phone)
            (composeBillingMessage sa p) with
        | .throw e => exact Or.inr ⟨e, by simp [hlen, hf]⟩
        | .resp true status text (.ok d) => exact Or.inl ⟨d, d.message_id, by simp [hlen, hf]⟩
        | .resp true status text (.error e) => exact Or.inr ⟨e, by simp [hlen, hf]⟩
        | .resp false status text json =>
          exact Or.inr ⟨"WhatsApp API error: " ++ toString status ++ " - " ++ text,
            by simp [hlen, hf]⟩
  · intro sa p env e htok
    simp [sendBillingWhatsApp, htok]
  · intro sa p env htok
    simp [sendBillingWhatsApp, htok]
  · intro sa p env tok htok hlen
    simp [sendBillingWhatsApp, htok, hlen]
  · intro sa p env tok e htok hlen hf
    simp [sendBillingWhatsApp, htok, Nat.not_lt_of_le hlen, hf]
  · intro sa p env tok status text json htok hlen hf
    simp [sendBillingWhatsApp, htok, Nat.not_lt_of_le hlen, hf]
  · intro sa env tok d htok hf
    have hph : normalizePhone (examplePhoneParams "+91 98765-43210").phone =
        "919876543210" := by decide
    have hlen : ¬ ((normalizePhone (examplePhoneParams "+91 98765-43210").phone).length < 10) := by
      decide
    simp only [sendBillingWhatsApp, htok, if_neg hlen]
    rw [hph]
    simp [hf]
  · intro sa env tok htok
    have hlen : (normalizePhone (examplePhoneParams "12345").phone).length < 10 := by decide
    simp [sendBillingWhatsApp, htok, hlen]

/-- C4 witness: the token-absence, short-phone and accepted-phone branches
exercised at concrete environments. -/
theorem send_billing_structured_witness :
    sendBillingWhatsApp (fun a => (a, "", ""))
        (examplePhoneParams "12345")
        { tokenOutcome := .ok none, fetch := fun _ _ _ => .throw "net down",
          timestamp := "T0" } =
      .fail "No valid access token found for organisation" "T0" ∧
    sendBillingWhatsApp (fun a => (a, "", ""))
        (examplePhoneParams "12345")
        { tokenOutcome := .ok (some "tok"), fetch := fun _ _ _ => .throw "net down",
          timestamp := "T1" } =
      .fail "Invalid phone number format" "T1" ∧
    sendBillingWhatsApp (fun a => (a, "", ""))
        (examplePhoneParams "+91 98765-43210")
        { tokenOutcome := .ok (some "tok"),
          fetch := fun _ _ _ => .resp true 200 "" (.ok ⟨some "mid"⟩),
          timestamp := "T2" } =
      .ok ⟨some "mid"⟩ (some "mid") :=
  ⟨send_billing_structured.2.2.2.2.2.1 (fun a => (a, "", ""))
      (examplePhoneParams "12345") _ rfl,
   send_billing_structured.2.2.2.2.2.2.2.2.2.2 (fun a => (a, "", "")) _ "tok" rfl,
   send_billing_structured.2.2.2.2.2.2.2.2.2.1 (fun a => (a, "", "")) _ "tok"
      ⟨some "mid"⟩ rfl rfl⟩

/-- Outcome of one awaited delivery attempt inside the retry loop, indexed
by attempt number: the call either resolves with a `SendResult` or rejects
with an error message. -/
inductive ClientOutcome where
  | res (r : SendResult)
  | threw (e : String)
deriving DecidableEq

/-- Whether an attempt outcome is a resolved success result (the loop's
`if (result.success)` test; a rejected attempt is not a success). -/
def isOkOutcome : ClientOutcome → Bool
  | .res (.ok _ _) => true
  | _ => false

/-- What `sendBillingWhatsAppWithRetry` ends with: the first success
result, or the terminal `throw new Error` whose message interpolates the
`maxRetries` attempt count and the last observed error (`none` models the
still-undefined `lastError`). -/
inductive RetryResult where
  | success (r : SendResult)
  | terminal (attempts : Nat) (lastError : Option String)
deriving DecidableEq

/-- The retry loop of msg-whatsapp.ts lines 110–141, by remaining-attempt
fuel; alongside the outcome it counts the delivery invocations made. A
resolved failure stores `result.error` as `lastError`; a rejected attempt
stores the thrown error; the backoff wait changes no state and is not
modelled. -/
def retryAux (client : Nat → ClientOutcome) (maxRetries : Nat) :
    Nat → Nat → Option String → RetryResult × Nat
  | 0, _, lastError => (.terminal maxRetries lastError, 0)
  | fuel + 1, attempt, lastError =>
    match client attempt with
    | .res (.ok d m) => (.success (.ok d m), 1)
    | .res (.fail e _t) =>
      let r := retryAux client maxRetries fuel (attempt + 1) (some e)
      (r.1, r.2 + 1)
    | .threw e =>
      let r := retryAux client maxRetries fuel (attempt + 1) (some e)
      (r.1, r.2 + 1)

/-- msg-whatsapp.ts `sendBillingWhatsAppWithRetry`: run the loop from
attempt 1 with `lastError` undefined; the payload is folded into the
attempt-indexed `client` oracle. -/
def sendBillingWhatsAppWithRetry (client : Nat → ClientOutcome) (maxRetries : Nat) :
    RetryResult × Nat :=
  retryAux client maxRetries maxRetries 1 none

/-- The default `maxRetries = 3` of the source's parameter default. -/
def defaultMaxRetries : Nat := 3

/-- The loop performs at most `fuel` delivery invocations. -/
theorem retryAux_calls_le (client : Nat → ClientOutcome) (m : Nat) :
    ∀ fuel attempt le, (retryAux client m fuel attempt le).2 ≤ fuel := by
  intro fuel
  induction fuel with
  | zero => intro attempt le; simp [retryAux]
  | succ f ih =>
    intro attempt le
    cases hc : client attempt with
    | res r =>
      cases r with
      | ok d mi => simp [retryAux, hc]
      | fail e t =>
        simp only [retryAux, hc]
        exact Nat.succ_le_succ (ih (attempt + 1) (some e))
    | threw e =>
      simp only [retryAux, hc]
      exact Nat.succ_le_succ (ih (attempt + 1) (some e))

/-- If attempt `k` is the first success within the fuel window, the loop
stops there with that result, having invoked the client `k + 1 - attempt`
times. -/
theorem retryAux_first_success (client : Nat → ClientOutcome) (m : Nat)
    (d : ProviderResponse) (mi : Option String) (k : Nat)
    (hk : client k = .res (.ok d mi)) :
    ∀ fuel attempt le, attempt ≤ k → k < attempt + fuel →
      (∀ a, attempt ≤ a → a < k → isOkOutcome (client a) = false) →
      retryAux client m fuel attempt le = (.success (.ok d mi), k + 1 - attempt) := by
  intro fuel
  induction fuel with
  | zero => intro attempt le h1 h2 _; exact absurd h2 (by omega)
  | succ f ih =>
    intro attempt le h1 h2 hall
    rcases Nat.eq_or_lt_of_le h1 with heq | hlt
    · subst heq
      rw [show attempt + 1 - attempt = 1 by omega]
      simp [retryAux, hk]
    · have hfail := hall attempt (Nat.le_refl _) hlt
      cases hc : client attempt with
      | res r =>
        cases r with
        | ok d' mi' => rw [hc] at hfail; simp [isOkOutcome] at hfail
        | fail e t =>
          have hr := ih (attempt + 1) (some e) (by omega) (by omega)
            (fun a ha1 ha2 => hall a (by omega) ha2)
          simp only [retryAux, hc, hr]
          exact Prod.ext rfl (by omega)
      | threw e =>
        have hr := ih (attempt + 1) (some e) (by omega) (by omega)
          (fun a ha1 ha2 => hall a (by omega) ha2)
        simp only [retryAux, hc, hr]
        exact Prod.ext rfl (by omega)

/-- If every attempt resolves with a failure result, the loop exhausts its
fuel and ends in the terminal error carrying `maxRetries` and the error of
the last attempt made. -/
theorem retryAux_all_fail (client : Nat → ClientOutcome) (m : Nat)
    (errOf tsOf : Nat → String)
    (hc : ∀ a, client a = .res (.fail (errOf a) (tsOf a))) :
    ∀ fuel, 1 ≤ fuel → ∀ attempt le,
      retryAux client m fuel attempt le =
        (.terminal m (some (errOf (attempt + fuel - 1))), fuel) := by
  intro fuel
  induction fuel with
  | zero => intro h; exact absurd h (by omega)
  | succ f ih =>
    intro _ attempt le
    by_cases hf : f = 0
    · subst hf
      rw [show attempt + 1 - 1 = attempt by omega]
      simp [retryAux, hc attempt]
    · have hr := ih (by omega) (attempt + 1) (some (errOf attempt))
      simp only [retryAux, hc attempt, hr]
      exact Prod.ext (by rw [show attempt + 1 + f - 1 = attempt + (f + 1) - 1 by omega]) rfl

/-- A delivery stub that resolves with a failure on attempts 1 and 2 and
with a success from attempt 3 on. -/
def stubFailTwice : Nat → ClientOutcome := fun a =>
  if a ≤ 2 then .res (.fail "boom" "T") else .res (.ok ⟨some "mid"⟩ (some "mid"))

/-- C5: the retry wrapper makes at most `maxRetries` delivery invocations;
it returns the first success it observes, after exactly as many
invocations as that attempt's index (so `stubFailTwice` is invoked exactly
3 times under the default `maxRetries = 3` and its success value is
returned); and when every attempt fails it makes exactly `maxRetries`
invocations and ends in the terminal error carrying the attempt count and
the last observed error. -/
theorem retry_wrapper_behavior :
    (∀ client m, (sendBillingWhatsAppWithRetry client m).2 ≤ m) ∧
    (∀ client m k d mi, 1 ≤ k → k ≤ m →
      (∀ a, 1 ≤ a → a < k → isOkOutcome (client a) = false) →
      client k = .res (.ok d mi) →
      sendBillingWhatsAppWithRetry client m = (.success (.ok d mi), k)) ∧
    sendBillingWhatsAppWithRetry stubFailTwice defaultMaxRetries =
      (.success (.ok ⟨some "mid"⟩ (some "mid")), 3) ∧
    (∀ (errOf tsOf : Nat → String) m, 1 ≤ m →
      sendBillingWhatsAppWithRetry (fun a => .res (.fail (errOf a) (tsOf a))) m =
        (.terminal m (some (errOf m)), m)) := by
  refine ⟨?_, ?_, by decide, ?_⟩
  · intro client m
    exact retryAux_calls_le client m m 1 none
  · intro client m k d mi h1 h2 hall hk
    have := retryAux_first_success client m d mi k hk m 1 none h1 (by omega) hall
    rw [sendBillingWhatsAppWithRetry, this, show k + 1 - 1 = k by omega]
  · intro errOf tsOf m hm
    have := retryAux_all_fail (fun a => .res (.fail (errOf a) (tsOf a))) m errOf tsOf
      (fun a => rfl) m hm 1 none
    rw [sendBillingWhatsAppWithRetry, this, show 1 + m - 1 = m by omega]

/-- C5 witness: the first-success rule applied to the fail-twice stub, and
the exhaustion rule applied to an always-failing stub, both at
`maxRetries = 3`. -/
theorem retry_wrapper_behavior_witness :
    sendBillingWhatsAppWithRetry stubFailTwice 3 =
      (.success (.ok ⟨some "mid"⟩ (some "mid")), 3) ∧
    sendBillingWhatsAppWithRetry (fun a => .res (.fail (Nat.repr a) "T")) 3 =
      (.terminal 3 (some (Nat.repr 3)), 3) :=
  ⟨retry_wrapper_behavior.2.1 stubFailTwice 3 3 ⟨some "mid"⟩ (some "mid")
      (by decide) (by decide)
      (fun a ha1 ha2 => by
        have : a = 1 ∨ a = 2 := by omega
        rcases this with rfl | rfl <;> decide)
      rfl,
   retry_wrapper_behavior.2.2.2 (fun a => Nat.repr a) (fun _ => "T") 3 (by decide)⟩

/-- JS `String.prototype.toUpperCase`, as the character-wise upper-case
map on the string's data. -/
def jsToUpperCase (s : String) : String :=
  ⟨s.data.map Char.toUpper⟩

/-- msg-whatsapp.ts `formatBillingMessage` (lines 147–179). The external
`splitAddressIntoThreeParts` is a function argument; the hidden clock read
`new Date().toLocaleDateString()` of the 'detailed' branch is made an
explicit `currentDate` argument; the `switch` maps any tag other than
"compact" and "detailed" to the default branch. -/
def formatBillingMessage (splitAddressIntoThreeParts : String → String × String × String)
    (companyName billNo products : String) (amount : Int) (address : String)
    (shippingMethod : Option ShippingMethod) (template : String)
    (currentDate : String) : String :=
  let parts := splitAddressIntoThreeParts address
  let shippingLine := shippingLineOf shippingMethod
  if template = "compact" then
    "🧾 " ++ companyName ++ " Bill #" ++ billNo ++ "\n💰 Total: ₹" ++ toString amount
      ++ shippingLine ++ "\n📍 " ++ parts.1 ++ "\nThank you! 🙏"
  else if template = "detailed" then
    "🧾 *INVOICE FROM " ++ jsToUpperCase companyName ++ "*\n\n📋 *Bill Number:* " ++ billNo
      ++ "\n📅 *Date:* " ++ currentDate ++ "\n\n🛒 *ITEMS PURCHASED:*\n" ++ products
      ++ "\n\n💰 *TOTAL AMOUNT:* ₹" ++ toString amount ++ shippingLine
      ++ "\n\n🏠 *DELIVERY ADDRESS:*\n" ++ parts.1 ++ "\n" ++ parts.2.1 ++ "\n" ++ parts.2.2
      ++ "\n\n✅ *Order Status:* Confirmed\n🙏 Thank you for choosing " ++ companyName ++ "!"
  else
    "🧾 *" ++ companyName ++ " Bill #" ++ billNo ++ "*\n\n🛒 *Items:*\n" ++ products
      ++ "\n\n💰 *Total:* ₹" ++ toString amount ++ shippingLine
      ++ "\n\n🏠 *Delivery Address:*\n" ++ parts.1 ++ "\n" ++ parts.2.1 ++ "\n" ++ parts.2.2
      ++ "\n\n🙏 Thank you for shopping with us!"

/-- C7 counterexample: with every other input fixed, the 'detailed'
template read on two different dates yields two different strings — the
claim that any two evaluations agree fails for the 'detailed' variant,
because that branch embeds the current date. -/
theorem format_message_date_counterexample :
    formatBillingMessage (fun a => (a, "", "")) "Veda" "42" "Soap" 100 "Addr" none
        "detailed" "01/01/2024" ≠
      formatBillingMessage (fun a => (a, "", "")) "Veda" "42" "Soap" 100 "Addr" none
        "detailed" "02/01/2024" := by
  decide

/-- C7 (amended): `formatBillingMessage` is pure string assembly with no
failure mode, and for the default and 'compact' variants any two
evaluations of the same fixed input return the identical string; the
'detailed' variant additionally depends on the current date read from the
clock. -/
theorem format_message_pure_amended :
    ∀ (sa : String → String × String × String) (cn bn pr : String) (am : Int)
      (ad : String) (sm : Option ShippingMethod) (tag d1 d2 : String),
      tag ≠ "detailed" →
      formatBillingMessage sa cn bn pr am ad sm tag d1 =
        formatBillingMessage sa cn bn pr am ad sm tag d2 := by
  intro sa cn bn pr am ad sm tag d1 d2 h
  by_cases hc : tag = "compact" <;> simp [formatBillingMessage, hc, h]

/-- C7 witness: the amended determinism applied to the 'compact' variant at
two distinct dates. -/
theorem format_message_pure_amended_witness :
    formatBillingMessage (fun a => (a, "", "")) "Veda" "42" "Soap" 100 "Addr" none
        "compact" "01/01/2024" =
      formatBillingMessage (fun a => (a, "", "")) "Veda" "42" "Soap" 100 "Addr" none
        "compact" "02/01/2024" :=
  format_message_pure_amended (fun a => (a, "", "")) "Veda" "42" "Soap" 100 "Addr" none
    "compact" "01/01/2024" "02/01/2024" (by decide)

/-- C9: every template tag other than "compact" and "detailed" — including
the absent tag, which the source defaults to "default" — produces exactly
the default variant's message string. -/
theorem format_message_default_fallback :
    ∀ (sa : String → String × String × String) (cn bn pr : String) (am : Int)
      (ad : String) (sm : Option ShippingMethod) (tag d : String),
      tag ≠ "compact" → tag ≠ "detailed" →
      formatBillingMessage sa cn bn pr am ad sm tag d =
        formatBillingMessage sa cn bn pr am ad sm "default" d := by
  intro sa cn bn pr am ad sm tag d h1 h2
  rw [formatBillingMessage, formatBillingMessage]
  rw [if_neg h1, if_neg h2, if_neg (by decide : ¬ ("default" : String) = "compact"),
    if_neg (by decide : ¬ ("default" : String) = "detailed")]

/-- C9 witness: an unrecognized tag "fancy" produces the default variant's
string. -/
theorem format_message_default_fallback_witness :
    formatBillingMessage (fun a => (a, "", "")) "Veda" "42" "Soap" 100 "Addr" none
        "fancy" "01/01/2024" =
      formatBillingMessage (fun a => (a, "", "")) "Veda" "42" "Soap" 100 "Addr" none
        "default" "01/01/2024" :=
  format_message_default_fallback (fun a => (a, "", "")) "Veda" "42" "Soap" 100 "Addr"
    none "fancy" "01/01/2024" (by decide) (by decide)

/-- The customer relation loaded with a bill; `phone` is `none` when the
`customer?.phone` truthiness check fails. -/
structure Customer where
  phone : Option String
deriving DecidableEq

/-- The organisation relation loaded with a bill. -/
structure Organisation where
  shopName : String
deriving DecidableEq

/-- The product relation of a bill item; only its name is read. -/
structure Product where
  name : String
deriving DecidableEq

/-- A `transactionRecord` row with the relations the route includes. The
stored `parseFloat(weight)` is modelled by the weight's source text, since
no claim depends on its numeric interpretation. -/
structure Bill where
  id : Nat
  companyBillNo : Nat
  organisationId : Nat
  billingMode : String
  trackingNumber : Option String
  weight : Option String
  status : String
  customer : Option Customer
  items : List Product
  organisation : Organisation
deriving DecidableEq

/-- The 8-slot template-variable set assembled at route.ts lines 96–105. -/
structure WhatsappVariables where
  var1 : String
  var2 : String
  var3 : String
  var4 : String
  var5 : String
  var6 : String
  var7 : String
  var8 : String
deriving DecidableEq

/-- The parsed JSON body of the tracking POST; a field is `none` when
absent or falsy (the `!billId || !trackingNumber` and `weight ? ... : null`
checks). -/
structure PostBody where
  billId : Option String
  trackingNumber : Option String
  weight : Option String

/-- Modelled from the spec: outcome of awaiting `sendOrderStatusWhatsApp`
(imported from `@/lib/whatsapp`, which is not part of this repository
slice). Per the spec, the call either returns normally or throws an
exception that the route's try/catch turns into a 500. -/
inductive NotifyOutcome where
  | ok
  | threw (msg : String)

/-- Environment of one tracking POST: the session (already reduced to the
caller's organisation id, `none` when unauthenticated), the parsed body
(`none` when `request.json()` rejects), and the notification oracle keyed
by phone, organisation id and template variables. -/
structure PostEnv where
  session : Option Nat
  body : Option PostBody
  notify : String → Nat → WhatsappVariables → NotifyOutcome

/-- JS `parseInt` as used on `billId`: the leading decimal-digit run, or
`none` for NaN. -/
def parseIntJS (s : String) : Option Nat :=
  let ds := s.data.takeWhile (fun c => c.isDigit)
  if ds.isEmpty then none
  else some (ds.foldl (fun n c => n * 10 + (c.toNat - 48)) 0)

/-- The `prisma.transactionRecord.findFirst` of route.ts lines 53–63: first
bill matching the parsed bill number scoped to the caller's organisation. -/
def findBill (db : List Bill) (billId : String) (orgId : Nat) : Option Bill :=
  match parseIntJS billId with
  | none => none
  | some n => db.find? (fun b => b.companyBillNo == n && b.organisationId == orgId)

/-- The field update of route.ts lines 73–85 applied to one record:
tracking number, optional weight, status "shipped". -/
def updateBillRecord (b : Bill) (trackingNumber : String) (weight : Option String) : Bill :=
  { b with trackingNumber := some trackingNumber, weight := weight, status := "shipped" }

/-- The store after `prisma.transactionRecord.update` on the bill with the
given id. -/
def updateDb (db : List Bill) (billId : Nat) (tn : String) (w : Option String) : List Bill :=
  db.map (fun b => if b.id == billId then updateBillRecord b tn w else b)

/-- The template-variable assembly of route.ts lines 89–105.
`splitProducts` is the external two-slot product splitter from
`@/lib/whatsapp`, modelled from the spec as a supplied function. -/
def mkWhatsappVariables (splitProducts : String → String × String)
    (updatedBill : Bill) (trackingNumber : String) (weight : Option String) :
    WhatsappVariables :=
  let organisationName := updatedBill.organisation.shopName
  let productList := String.intercalate ", " (updatedBill.items.map (fun i => i.name))
  let parts := splitProducts productList
  let shippingPartner := determineShippingPartner trackingNumber
  { var1 := organisationName, var2 := parts.1, var3 := parts.2,
    var4 := shippingPartner, var5 := trackingNumber,
    var6 := match weight with | some w => w ++ " Kg" | none => "",
    var7 := getTrackingUrl shippingPartner trackingNumber,
    var8 := organisationName }

/-- The JSON responses the tracking POST can produce, tagged by shape. -/
inductive TrackingResponse where
  | unauthorized
  | badRequest (error : String)
  | notFound
  | okBill (bill : Bill)
  | serverError (message : String)
deriving DecidableEq

/-- HTTP status of each response shape. -/
def statusOf : TrackingResponse → Nat
  | .unauthorized => 401
  | .badRequest _ => 400
  | .notFound => 404
  | .okBill _ => 200
  | .serverError _ => 500

/-- route.ts `POST`: authorize, validate, load the bill scoped to the
caller's organisation, guard offline bills, mutate, then notify inside the same
try/catch — a thrown notification becomes the catch's 500 response. The
pair's second component is the resulting store. -/
def POSTtracking (splitProducts : String → String × String) (env : PostEnv)
    (db : List Bill) : TrackingResponse × List Bill :=
  match env.session with
  | none => (.unauthorized, db)
  | some orgId =>
    match env.body with
    | none => (.serverError "Invalid JSON body", db)
    | some body =>
      match body.billId, body.trackingNumber with
      | some billId, some trackingNumber =>
        match findBill db billId orgId with
        | none => (.notFound, db)
        | some existingBill =>
          if existingBill.billingMode == "offline" then
            (.badRequest "Tracking cannot be added to offline bills.", db)
          else
            let updatedBill := updateBillRecord existingBill trackingNumber body.weight
            let db2 := updateDb db existingBill.id trackingNumber body.weight
            match updatedBill.customer with
            | some c =>
              match c.phone with
              | some ph =>
                match env.notify ph orgId
                    (mkWhatsappVariables splitProducts updatedBill trackingNumber
                      body.weight) with
                | .ok => (.okBill updatedBill, db2)
                | .threw msg => (.serverError msg, db2)
              | none => (.okBill updatedBill, db2)
            | none => (.okBill updatedBill, db2)
      | _, _ => (.badRequest "Bill ID and tracking number are required", db)

/-- Normal form of the tracking POST once a request reaches the mutation
step: the store is always the updated one, and the response is decided by
the customer-phone guard and the notification outcome. -/
theorem POSTtracking_mutation_eq (sp : String → String × String) (env : PostEnv)
    (db : List Bill) (orgId : Nat) (body : PostBody) (billId tn : String) (bill : Bill)
    (hs : env.session = some orgId) (hb : env.body = some body)
    (hbid : body.billId = some billId) (htn : body.trackingNumber = some tn)
    (hf : findBill db billId orgId = some bill)
    (hoff : (bill.billingMode == "offline") = false) :
    POSTtracking sp env db =
      (match bill.customer with
       | some c =>
         match c.phone with
         | some ph =>
           match env.notify ph orgId
               (mkWhatsappVariables sp (updateBillRecord bill tn body.weight) tn
                 body.weight) with
           | .ok => .okBill (updateBillRecord bill tn body.weight)
           | .threw msg => .serverError msg
         | none => .okBill (updateBillRecord bill tn body.weight)
       | none => .okBill (updateBillRecord bill tn body.weight),
       updateDb db bill.id tn body.weight) := by
  have hcust : (updateBillRecord bill tn body.weight).customer = bill.customer := rfl
  simp only [POSTtracking, hs, hb, hbid, htn, hf, hoff, Bool.false_eq_true,
    if_false, hcust]
  rcases hc : bill.customer with _ | c
  · simp [hc]
  · rcases hp : c.phone with _ | ph
    · simp [hc, hp]
    · rcases hn : env.notify ph orgId
        (mkWhatsappVariables sp (updateBillRecord bill tn body.weight) tn
          body.weight) with _ | msg
      · simp [hc, hp, hn]
      · simp [hc, hp, hn]

/-- C2: an authorized tracking POST whose loaded bill is in "offline"
billing mode answers 400 and leaves the store untouched; the update is
never reached. -/
theorem tracking_offline_guard :
    ∀ (sp : String → String × String) (env : PostEnv) (db : List Bill) (orgId : Nat)
      (body : PostBody) (billId tn : String) (bill : Bill),
      env.session = some orgId →
      env.body = some body →
      body.billId = some billId →
      body.trackingNumber = some tn →
      findBill db billId orgId = some bill →
      bill.billingMode = "offline" →
      POSTtracking sp env db =
          (.badRequest "Tracking cannot be added to offline bills.", db) ∧
        statusOf (POSTtracking sp env db).1 = 400 := by
  intro sp env db orgId body billId tn bill hs hb hbid htn hf hoff
  have h : POSTtracking sp env db =
      (.badRequest "Tracking cannot be added to offline bills.", db) := by
    simp only [POSTtracking, hs, hb, hbid, htn, hf, hoff]
    simp
  exact ⟨h, by rw [h]; rfl⟩

/-- Fixture: the organisation, customer and items shared by the concrete
bills below. -/
def cOrganisation : Organisation := ⟨"Veda Shop"⟩

/-- Fixture: a customer with a phone number, so the notification step is
reached. -/
def cCustomer : Customer := ⟨some "9876543210"⟩

/-- Fixture: an offline-mode bill with company bill number 7 owned by
organisation 1. -/
def cBillOffline : Bill :=
  { id := 5, companyBillNo := 7, organisationId := 1, billingMode := "offline",
    trackingNumber := none, weight := none, status := "created",
    customer := some cCustomer, items := [⟨"Soap"⟩], organisation := cOrganisation }

/-- Fixture: the same bill in online mode. -/
def cBillOnline : Bill :=
  { cBillOffline with billingMode := "online" }

/-- Fixture: a well-formed tracking POST body for bill 7. -/
def cBody : PostBody :=
  { billId := some "7", trackingNumber := some "CT1", weight := none }

/-- C2 witness: the offline guard exercised on the concrete offline bill. -/
theorem tracking_offline_guard_witness :
    POSTtracking (fun s => (s, ""))
        { session := some 1, body := some cBody, notify := fun _ _ _ => .ok }
        [cBillOffline] =
        (.badRequest "Tracking cannot be added to offline bills.", [cBillOffline]) ∧
      statusOf (POSTtracking (fun s => (s, ""))
        { session := some 1, body := some cBody, notify := fun _ _ _ => .ok }
        [cBillOffline]).1 = 400 :=
  tracking_offline_guard (fun s => (s, ""))
    { session := some 1, body := some cBody, notify := fun _ _ _ => .ok }
    [cBillOffline] 1 cBody "7" "CT1" cBillOffline rfl rfl rfl rfl (by decide) rfl

/-- C1 counterexample: a request that reaches the mutation step (online
bill, customer with phone) whose notification call throws is answered with
the 500 error response, not the 200 success response — even though the
store does hold the mutated bill. -/
theorem tracking_notify_throw_counterexample :
    POSTtracking (fun s => (s, ""))
        { session := some 1, body := some cBody,
          notify := fun _ _ _ => .threw "notification failed" }
        [cBillOnline] =
        (.serverError "notification failed",
          [updateBillRecord cBillOnline "CT1" none]) ∧
      statusOf (POSTtracking (fun s => (s, ""))
        { session := some 1, body := some cBody,
          notify := fun _ _ _ => .threw "notification failed" }
        [cBillOnline]).1 = 500 ∧
      (updateBillRecord cBillOnline "CT1" none).status = "shipped" := by
  refine ⟨by decide, by decide, by decide⟩

/-- C1 (amended): once a request reaches the mutation step, the store
always ends up mutated and the response is the 200 success reporting the
updated bill whenever the notification is skipped (no customer phone) or
returns normally; but a thrown notification exception propagates to the
route's catch and yields a 500 with the exception's message, the mutation
having persisted. -/
theorem tracking_mutation_response_amended :
    ∀ (sp : String → String × String) (env : PostEnv) (db : List Bill) (orgId : Nat)
      (body : PostBody) (billId tn : String) (bill : Bill),
      env.session = some orgId →
      env.body = some body →
      body.billId = some billId →
      body.trackingNumber = some tn →
      findBill db billId orgId = some bill →
      (bill.billingMode == "offline") = false →
      (POSTtracking sp env db).2 = updateDb db bill.id tn body.weight ∧
      (∀ c ph, bill.customer = some c → c.phone = some ph →
        (env.notify ph orgId
            (mkWhatsappVariables sp (updateBillRecord bill tn body.weight) tn
              body.weight) = .ok →
          (POSTtracking sp env db).1 = .okBill (updateBillRecord bill tn body.weight)) ∧
        (∀ msg, env.notify ph orgId
            (mkWhatsappVariables sp (updateBillRecord bill tn body.weight) tn
              body.weight) = .threw msg →
          (POSTtracking sp env db).1 = .serverError msg)) ∧
      (bill.customer = none →
        (POSTtracking sp env db).1 = .okBill (updateBillRecord bill tn body.weight)) ∧
      (∀ c, bill.customer = some c → c.phone = none →
        (POSTtracking sp env db).1 = .okBill (updateBillRecord bill tn body.weight)) := by
  intro sp env db orgId body billId tn bill hs hb hbid htn hf hoff
  have h := POSTtracking_mutation_eq sp env db orgId body billId tn bill
    hs hb hbid htn hf hoff
  refine ⟨by rw [h], ?_, ?_, ?_⟩
  · intro c ph hc hph
    constructor
    · intro hn
      rw [h]
      simp [hc, hph, hn]
    · intro msg hn
      rw [h]
      simp [hc, hph, hn]
  · intro hc
    rw [h]
    simp [hc]
  · intro c hc hph
    rw [h]
    simp [hc, hph]

/-- C1 witness: the amended behavior exercised on the concrete online bill,
with a returning notification (200 with the updated bill) and with a
throwing one (500, mutated store). -/
theorem tracking_mutation_response_amended_witness :
    (POSTtracking (fun s => (s, ""))
        { session := some 1, body := some cBody, notify := fun _ _ _ => .ok }
        [cBillOnline]).1 = .okBill (updateBillRecord cBillOnline "CT1" none) ∧
    (POSTtracking (fun s => (s, ""))
        { session := some 1, body := some cBody,
          notify := fun _ _ _ => .threw "notification failed" }
        [cBillOnline]).1 = .serverError "notification failed" ∧
    (POSTtracking (fun s => (s, ""))
        { session := some 1, body := some cBody,
          notify := fun _ _ _ => .threw "notification failed" }
        [cBillOnline]).2 = updateDb [cBillOnline] 5 "CT1" none :=
  ⟨((tracking_mutation_response_amended (fun s => (s, ""))
      { session := some 1, body := some cBody, notify := fun _ _ _ => .ok }
      [cBillOnline] 1 cBody "7" "CT1" cBillOnline rfl rfl rfl rfl (by decide)
      (by decide)).2.1 cCustomer "9876543210" rfl rfl).1 rfl,
   ((tracking_mutation_response_amended (fun s => (s, ""))
      { session := some 1, body := some cBody,
        notify := fun _ _ _ => .threw "notification failed" }
      [cBillOnline] 1 cBody "7" "CT1" cBillOnline rfl rfl rfl rfl (by decide)
      (by decide)).2.1 cCustomer "9876543210" rfl rfl).2 "notification failed" rfl,
   (tracking_mutation_response_amended (fun s => (s, ""))
      { session := some 1, body := some cBody,
        notify := fun _ _ _ => .threw "notification failed" }
      [cBillOnline] 1 cBody "7" "CT1" cBillOnline rfl rfl rfl rfl (by decide)
      (by decide)).1⟩

end Billzzy
